import Mathlib

/-!
Verification of the fault-isolation and retry-orchestration layer of the
api-auvasa service: the `CircuitBreaker` class and the `RobustGtfsWrapper`
class of `lib/gtfs/robust-gtfs-wrapper.js`, shallowly embedded in Lean.

Modelling conventions.
* Time is modelled as an exact millisecond clock of type `Int` (`Date.now()`).
* The wrapped asynchronous operation is modelled by its observable behaviour:
  each invocation settles after some duration, fulfilling or rejecting.
* JavaScript numbers only occur with fractional or non-finite values in the
  `averageResponseTime` statistic; that field is modelled by `JSNum`, an exact
  rational together with a single marker for all non-finite doubles.
* `async`/`await` control flow is sequentialised: the `Promise.race` of the
  operation against the timeout timer is resolved by comparing the operation's
  settle duration with the configured timeout (a tie goes to the timer).
-/

set_option maxRecDepth 40000

namespace Gtfs

/-- A JavaScript runtime number as it occurs in the embedded code: either a
finite value (kept exact as a rational; IEEE rounding is not modelled, no
claim depends on low-order digits) or a non-finite double (`Infinity`,
`-Infinity` and `NaN` are not distinguished). `nonFinite` is absorbing for
the three operations used by the code; this is exact for the reachable
states, where every divisor is a finite (natural-number) count. -/
inductive JSNum where
  | fin : ℚ → JSNum
  | nonFinite : JSNum
deriving DecidableEq

def JSNum.add : JSNum → JSNum → JSNum
  | JSNum.fin a, JSNum.fin b => JSNum.fin (a + b)
  | _, _ => JSNum.nonFinite

def JSNum.mul : JSNum → JSNum → JSNum
  | JSNum.fin a, JSNum.fin b => JSNum.fin (a * b)
  | _, _ => JSNum.nonFinite

/-- JavaScript division. Division by (finite) zero produces a non-finite
double (`Infinity`, `-Infinity` or `NaN` depending on the numerator), so the
denominator is inspected first. -/
def JSNum.div (a b : JSNum) : JSNum :=
  match b with
  | JSNum.fin q =>
    if q = 0 then JSNum.nonFinite
    else
      match a with
      | JSNum.fin p => JSNum.fin (p / q)
      | JSNum.nonFinite => JSNum.nonFinite
  | JSNum.nonFinite => JSNum.nonFinite

/-- JavaScript `x || d` for an optionally supplied numeric option field:
`undefined` and `0` are falsy and select the default `d`. -/
def jsOrNat : Option Nat → Nat → Nat
  | some n, d => if n = 0 then d else n
  | none, d => d

/-- `Int` version of `jsOrNat`. -/
def jsOrInt : Option Int → Int → Int
  | some n, d => if n = 0 then d else n
  | none, d => d

/-- JavaScript arithmetic coerces `null` to `0`. -/
def jsNullNum : Option Int → Int
  | some n => n
  | none => 0

/-- JavaScript truthiness of an optional numeric field
(`undefined` and `0` are falsy, every other number is truthy). -/
def jsTruthy : Option Int → Bool
  | some n => n != 0
  | none => false

/-- Whether `sub` is a prefix of `hay` (character lists). -/
def charsStartWith : List Char → List Char → Bool
  | [], _ => true
  | _ :: _, [] => false
  | a :: as, b :: bs => a == b && charsStartWith as bs

/-- Whether `sub` occurs anywhere in `hay` (character lists). -/
def charsIncludes (sub : List Char) : List Char → Bool
  | [] => charsStartWith sub []
  | b :: bs => charsStartWith sub (b :: bs) || charsIncludes sub bs

/-- JavaScript `hay.includes(sub)`. -/
def strIncludes (hay sub : String) : Bool :=
  charsIncludes sub.data hay.data

/-- An error value flowing through the wrapper: the `message` string and the
optional `code` property (the breaker sets `error.code = 'CIRCUIT_OPEN'` on
short-circuited calls). -/
structure JsError where
  message : String
  code : Option String
deriving DecidableEq

/-- Circuit breaker states. -/
inductive CBState where
  | CLOSED
  | OPEN
  | HALF_OPEN
deriving DecidableEq

/-- The `this.stats` object of a `CircuitBreaker`. -/
structure Stats where
  totalRequests : Nat
  successfulRequests : Nat
  failedRequests : Nat
  timeouts : Nat
  circuitOpenCount : Nat
  averageResponseTime : JSNum
  lastSuccessTime : Option Int
  lastFailureTime : Option Int
deriving DecidableEq

/-- The mutable state of a `CircuitBreaker` instance. -/
structure CircuitBreaker where
  name : String
  failureThreshold : Nat
  timeout : Int
  resetTimeout : Int
  failureCount : Nat
  lastFailureTime : Option Int
  state : CBState
  stats : Stats
deriving DecidableEq

/-- The initial `this.stats` of the constructor. -/
def Stats.init : Stats :=
  { totalRequests := 0
    successfulRequests := 0
    failedRequests := 0
    timeouts := 0
    circuitOpenCount := 0
    averageResponseTime := JSNum.fin 0
    lastSuccessTime := none
    lastFailureTime := none }

/-- `new CircuitBreaker(name, options)`: each option defaults via `||`. -/
def CircuitBreaker.new (name : String) (failureThreshold : Option Nat)
    (timeout resetTimeout : Option Int) : CircuitBreaker :=
  { name := name
    failureThreshold := jsOrNat failureThreshold 5
    timeout := jsOrInt timeout 30000
    resetTimeout := jsOrInt resetTimeout 60000
    failureCount := 0
    lastFailureTime := none
    state := CBState.CLOSED
    stats := Stats.init }

/-- `updateAverageResponseTime(newTime)`: incremental mean over
`stats.totalRequests`. When `totalRequests = 0` (possible because
`onSuccess`/`onFailure` are also called directly, outside `execute`) the
division is by zero and the stored average becomes non-finite. -/
def CircuitBreaker.updateAverageResponseTime (cb : CircuitBreaker) (newTime : Int) :
    CircuitBreaker :=
  let total : ℚ := cb.stats.totalRequests
  { cb with stats := { cb.stats with
      averageResponseTime :=
        JSNum.div
          (JSNum.add (JSNum.mul cb.stats.averageResponseTime (JSNum.fin (total - 1)))
            (JSNum.fin (newTime : ℚ)))
          (JSNum.fin total) } }

/-- `onSuccess(responseTime)` executed at wall-clock time `now`. -/
def CircuitBreaker.onSuccess (cb : CircuitBreaker) (responseTime now : Int) :
    CircuitBreaker :=
  let cb1 := { cb with
    failureCount := 0
    state := CBState.CLOSED
    stats := { cb.stats with
      successfulRequests := cb.stats.successfulRequests + 1
      lastSuccessTime := some now } }
  cb1.updateAverageResponseTime responseTime

/-- `onFailure(error, responseTime)` executed at wall-clock time `now`. -/
def CircuitBreaker.onFailure (cb : CircuitBreaker) (responseTime now : Int) :
    CircuitBreaker :=
  let cb1 := { cb with
    failureCount := cb.failureCount + 1
    lastFailureTime := some now
    stats := { cb.stats with
      failedRequests := cb.stats.failedRequests + 1
      lastFailureTime := some now } }
  let cb2 := cb1.updateAverageResponseTime responseTime
  if cb2.failureThreshold ≤ cb2.failureCount then
    { cb2 with
      state := CBState.OPEN
      stats := { cb2.stats with circuitOpenCount := cb2.stats.circuitOpenCount + 1 } }
  else cb2

/-- The body of the `setTimeout` callback created by `execute`
(`this.stats.timeouts++`). -/
def CircuitBreaker.bumpTimeouts (cb : CircuitBreaker) : CircuitBreaker :=
  { cb with stats := { cb.stats with timeouts := cb.stats.timeouts + 1 } }

/-- Observable behaviour of one invocation of the wrapped asynchronous
operation: it settles `duration` milliseconds after being started, either
fulfilling or rejecting with an error. -/
inductive OpOutcome where
  | ok (duration : Int)
  | fail (e : JsError) (duration : Int)
deriving DecidableEq

/-- Result of one `execute` call. `settled` is the breaker state at the moment
the call returns or throws. The source never clears the timeout timer, so when
the operation settles first the orphaned timer still fires `timeout`
milliseconds after the call started and runs `this.stats.timeouts++`;
`eventual` is the breaker state after that stray callback has also run
(`eventual = settled` when no timer remains pending). `opInvoked` records
whether the wrapped operation was started; `endTime` is `Date.now()` at the
moment the call settles. -/
structure ExecOutcome where
  result : Except JsError Unit
  settled : CircuitBreaker
  eventual : CircuitBreaker
  opInvoked : Bool
  endTime : Int

/-- The `Promise.race([fn(), timeoutPromise])` of `execute` together with the
subsequent bookkeeping, started at time `now` from a breaker state in which the
call has been admitted (`totalRequests` already incremented). A tie
(`duration = timeout`) is resolved in favour of the timer. -/
def CircuitBreaker.executeRace (cb : CircuitBreaker) (now : Int) (op : OpOutcome) :
    ExecOutcome :=
  match op with
  | OpOutcome.ok d =>
    if d < cb.timeout then
      let settled := cb.onSuccess d (now + d)
      { result := Except.ok ()
        settled := settled
        eventual := settled.bumpTimeouts
        opInvoked := true
        endTime := now + d }
    else
      let settled := cb.bumpTimeouts.onFailure cb.timeout (now + cb.timeout)
      { result := Except.error
          { message := "Timeout after " ++ toString cb.timeout ++ "ms for " ++ cb.name
            code := none }
        settled := settled
        eventual := settled
        opInvoked := true
        endTime := now + cb.timeout }
  | OpOutcome.fail e d =>
    if d < cb.timeout then
      let settled := cb.onFailure d (now + d)
      { result := Except.error e
        settled := settled
        eventual := settled.bumpTimeouts
        opInvoked := true
        endTime := now + d }
    else
      let settled := cb.bumpTimeouts.onFailure cb.timeout (now + cb.timeout)
      { result := Except.error
          { message := "Timeout after " ++ toString cb.timeout ++ "ms for " ++ cb.name
            code := none }
        settled := settled
        eventual := settled
        opInvoked := true
        endTime := now + cb.timeout }

/-- `CircuitBreaker.execute(fn)` called at time `now`, where the wrapped
operation, if started, behaves as `op`. (The human-readable remaining-cooldown
suffix of the rejection message is omitted; every consumer of that error
dispatches on its `code` property.) -/
def CircuitBreaker.execute (cb : CircuitBreaker) (now : Int) (op : OpOutcome) :
    ExecOutcome :=
  let cb1 := { cb with stats :=
    { cb.stats with totalRequests := cb.stats.totalRequests + 1 } }
  if cb1.state = CBState.OPEN then
    if now - jsNullNum cb1.lastFailureTime < cb1.resetTimeout then
      { result := Except.error
          { message := "Circuit breaker OPEN for " ++ cb.name
            code := some ("CIRCUIT_OPEN") }
        settled := cb1
        eventual := cb1
        opInvoked := false
        endTime := now }
    else
      CircuitBreaker.executeRace { cb1 with state := CBState.HALF_OPEN } now op
  else
    CircuitBreaker.executeRace cb1 now op

/-- Error taxonomy of `classifyError`. -/
inductive ErrorType where
  | NETWORK_ERROR
  | TIMEOUT_ERROR
  | DATA_FORMAT_ERROR
  | CIRCUIT_BREAKER_ERROR
  | UNKNOWN_ERROR
deriving DecidableEq

/-- `classifyError(error)`: first matching rule wins. -/
def classifyError (e : JsError) : ErrorType :=
  if e.code = some ("CIRCUIT_OPEN") then ErrorType.CIRCUIT_BREAKER_ERROR
  else if strIncludes e.message ("fetch failed") || strIncludes e.message ("ECONNREFUSED") then
    ErrorType.NETWORK_ERROR
  else if strIncludes e.message ("Timeout") then ErrorType.TIMEOUT_ERROR
  else if strIncludes e.message ("CIRCUIT_OPEN") then ErrorType.CIRCUIT_BREAKER_ERROR
  else if strIncludes e.message ("gtfsRealtimeVersion") || strIncludes e.message ("protobuf") then
    ErrorType.DATA_FORMAT_ERROR
  else ErrorType.UNKNOWN_ERROR

/-- `shouldRetry(error, errorType)` (the `error` argument is unused by the
source body, which dispatches on the classification only). -/
def shouldRetry : ErrorType → Bool
  | ErrorType.CIRCUIT_BREAKER_ERROR => false
  | ErrorType.NETWORK_ERROR => true
  | ErrorType.TIMEOUT_ERROR => true
  | ErrorType.DATA_FORMAT_ERROR => false
  | ErrorType.UNKNOWN_ERROR => true

/-- `getRetryDelay(attemptNumber)`: exponential backoff capped at 30 s. -/
def getRetryDelay (attemptNumber : Nat) : Int :=
  min ((2 : Int) ^ attemptNumber * 1000) 30000

/-- `Map.get` on the retry tracker (insertion-ordered association list with
unique keys, as a JavaScript `Map`). -/
def mapGet (m : List (String × Nat)) (k : String) : Option Nat :=
  match m with
  | [] => none
  | (k2, v) :: rest => if k2 = k then some v else mapGet rest k

/-- `Map.set`: updates the existing entry in place, else appends. -/
def mapSet (m : List (String × Nat)) (k : String) (v : Nat) : List (String × Nat) :=
  match m with
  | [] => [(k, v)]
  | (k2, v2) :: rest => if k2 = k then (k2, v) :: rest else (k2, v2) :: mapSet rest k v

/-- `Map.delete`. -/
def mapDel (m : List (String × Nat)) (k : String) : List (String × Nat) :=
  match m with
  | [] => []
  | (k2, v2) :: rest => if k2 = k then rest else (k2, v2) :: mapDel rest k

/-- The `this.config` object of `RobustGtfsWrapper`. -/
structure WrapperConfig where
  timeout : Int
  retries : Nat
  circuitBreakerFailureThreshold : Nat
  circuitBreakerResetTimeout : Int
  enableDetailedLogging : Bool
deriving DecidableEq

/-- The mutable state of the `RobustGtfsWrapper` singleton. -/
structure RobustGtfsWrapper where
  config : WrapperConfig
  nativeTimeoutSupported : Bool
  wrapperEnabled : Bool
  main : CircuitBreaker
  network : CircuitBreaker
  lastSuccessfulUpdate : Option Int
  consecutiveFailures : Nat
  retryTracker : List (String × Nat)
deriving DecidableEq

/-- `new RobustGtfsWrapper()` with no environment overrides (all config
defaults; the network breaker's threshold is fixed at 3). -/
def RobustGtfsWrapper.init : RobustGtfsWrapper :=
  { config :=
      { timeout := 30000
        retries := 2
        circuitBreakerFailureThreshold := 5
        circuitBreakerResetTimeout := 60000
        enableDetailedLogging := false }
    nativeTimeoutSupported := false
    wrapperEnabled := true
    main := CircuitBreaker.new ("GTFS-Realtime-Main") (some 5) (some 30000) (some 60000)
    network := CircuitBreaker.new ("GTFS-Realtime-Network") (some 3) (some 30000) (some 60000)
    lastSuccessfulUpdate := none
    consecutiveFailures := 0
    retryTracker := [] }

/-- Which of the two long-lived breakers a call is routed through. -/
inductive CBId where
  | mainCB
  | networkCB
deriving DecidableEq

def RobustGtfsWrapper.getCB (w : RobustGtfsWrapper) : CBId → CircuitBreaker
  | CBId.mainCB => w.main
  | CBId.networkCB => w.network

def RobustGtfsWrapper.setCB (w : RobustGtfsWrapper) : CBId → CircuitBreaker → RobustGtfsWrapper
  | CBId.mainCB, cb => { w with main := cb }
  | CBId.networkCB, cb => { w with network := cb }

/-- `selectCircuitBreaker()`. -/
def RobustGtfsWrapper.selectCircuitBreaker (w : RobustGtfsWrapper) : CBId :=
  if 2 ≤ w.consecutiveFailures then CBId.networkCB else CBId.mainCB

/-- `getCurrentRetryCount(operationId)`: reads the tracker entry for the given
identity (0 when absent) and stores back the read value plus one; returns the
value read. -/
def RobustGtfsWrapper.getCurrentRetryCount (w : RobustGtfsWrapper) (operationId : String) :
    Nat × RobustGtfsWrapper :=
  let count := (mapGet w.retryTracker operationId).getD 0
  (count, { w with retryTracker := mapSet w.retryTracker operationId (count + 1) })

/-- The object returned by `getGracefulFallback()`. -/
structure FallbackResult where
  success : Bool
  fallbackApplied : Bool
  message : String
  timeSinceLastSuccess : Option Int
deriving DecidableEq

/-- `getGracefulFallback()` evaluated at time `now`. The ternary
`this.lastSuccessfulUpdate ? now - this.lastSuccessfulUpdate : null` tests
JavaScript truthiness, so a (never reachable in practice) stored timestamp of
exactly `0` would also produce `null`. -/
def RobustGtfsWrapper.getGracefulFallback (w : RobustGtfsWrapper) (now : Int) :
    FallbackResult :=
  { success := false
    fallbackApplied := true
    message := "Using cached realtime data due to update failures"
    timeSinceLastSuccess :=
      match w.lastSuccessfulUpdate with
      | some t => if t = 0 then none else some (now - t)
      | none => none }

/-- `onUpdateSuccess(operationId)` executed at time `now`. -/
def RobustGtfsWrapper.onUpdateSuccess (w : RobustGtfsWrapper) (operationId : String)
    (now : Int) : RobustGtfsWrapper :=
  { w with
    lastSuccessfulUpdate := some now
    consecutiveFailures := 0
    retryTracker := mapDel w.retryTracker operationId }

/-- Result of one wrapper-level update call: the operation's resolved value
(abstracted), a re-thrown error (lightweight and passthrough modes only), or
the structured graceful-fallback object. -/
inductive UpdResult where
  | ok : UpdResult
  | thrown (e : JsError) : UpdResult
  | fallback (fb : FallbackResult) : UpdResult
deriving DecidableEq

def UpdResult.isOkRes : UpdResult → Bool
  | UpdResult.ok => true
  | _ => false

def UpdResult.isFallbackRes : UpdResult → Bool
  | UpdResult.fallback _ => true
  | _ => false

/-- `fullProtectionMode(gtfs, gtfsConfig)` with `handleUpdateError` inlined at
its single call site. `ops k` is the behaviour of the `k`-th invocation of
the wrapped operation since the start of the run, `now` is `Date.now()` on
entry, and `fuel` bounds the recursion depth of the retry loop (`none` means
the fuel ran out before the run terminated). Returns the result, the wrapper
state, the total number of operation invocations performed, and `Date.now()`
at the moment of return. Stray `stats.timeouts` increments from un-cancelled
timers (see `ExecOutcome`) are applied at the end of each attempt; nothing in
the code reads `stats.timeouts`, so this does not affect control flow. -/
def fullProtectionMode : Nat → RobustGtfsWrapper → Int → (Nat → OpOutcome) → Nat →
    Option (UpdResult × RobustGtfsWrapper × Nat × Int)
  | 0, _, _, _, _ => none
  | fuel + 1, w, now, ops, k =>
    let operationId := "gtfs-rt-" ++ toString now
    let cbId := w.selectCircuitBreaker
    let ex := CircuitBreaker.execute (w.getCB cbId) now (ops k)
    let w1 := w.setCB cbId ex.eventual
    let k1 := if ex.opInvoked then k + 1 else k
    match ex.result with
    | Except.ok _ =>
      some (UpdResult.ok, w1.onUpdateSuccess operationId ex.endTime, k1, ex.endTime)
    | Except.error e =>
      if e.code = some ("CIRCUIT_OPEN") then
        let w2 := { w1 with consecutiveFailures := w1.consecutiveFailures + 1 }
        some (UpdResult.fallback (w2.getGracefulFallback ex.endTime), w2, k1, ex.endTime)
      else
        let p := w1.getCurrentRetryCount operationId
        if shouldRetry (classifyError e) = true ∧ p.1 < w.config.retries then
          fullProtectionMode fuel p.2 (ex.endTime + getRetryDelay (p.1 + 1)) ops k1
        else
          let w2 := { p.2 with
            consecutiveFailures := p.2.consecutiveFailures + 1
            retryTracker := mapDel p.2.retryTracker operationId }
          some (UpdResult.fallback (w2.getGracefulFallback ex.endTime), w2, k1, ex.endTime)

/-- `lightweightMode(gtfs, gtfsConfig)`: invoke the operation directly and
record the outcome into the `main` breaker via `onSuccess`/`onFailure`
(never via `execute`), re-throwing errors unchanged. -/
def lightweightMode (w : RobustGtfsWrapper) (now : Int) (op : OpOutcome) (k : Nat) :
    UpdResult × RobustGtfsWrapper × Nat × Int :=
  match op with
  | OpOutcome.ok d =>
    let t := now + d
    let w1 := w.onUpdateSuccess ("native-" ++ toString t) t
    let w2 := { w1 with main := w1.main.onSuccess d t }
    (UpdResult.ok, w2, k + 1, t)
  | OpOutcome.fail e d =>
    let t := now + d
    let w1 := { w with consecutiveFailures := w.consecutiveFailures + 1 }
    let w2 := { w1 with main := w1.main.onFailure d t }
    (UpdResult.thrown e, w2, k + 1, t)

/-- The timeout-like fields of the feed configuration that
`detectNativeCapabilities` recognises. -/
structure GtfsConfig where
  realtimeTimeout : Option Int
  timeout : Option Int
  downloadTimeout : Option Int
deriving DecidableEq

/-- `detectNativeCapabilities(gtfsConfig)`; `disableEnv` models
`environment.GTFS_DISABLE_ROBUST_WRAPPER === 'true'`. -/
def detectNativeCapabilities (w : RobustGtfsWrapper) (cfg : GtfsConfig)
    (disableEnv : Bool) : RobustGtfsWrapper :=
  let w1 :=
    if jsTruthy cfg.realtimeTimeout || jsTruthy cfg.timeout || jsTruthy cfg.downloadTimeout then
      { w with nativeTimeoutSupported := true }
    else w
  if disableEnv then { w1 with wrapperEnabled := false } else w1

/-- `updateGtfsRealtime(gtfs, gtfsConfig)`: capability detection is guarded by
`this.lastSuccessfulUpdate === null`, then the call is dispatched to
passthrough, lightweight or full-protection mode. -/
def updateGtfsRealtime (fuel : Nat) (w : RobustGtfsWrapper) (now : Int)
    (cfg : GtfsConfig) (disableEnv : Bool) (ops : Nat → OpOutcome) (k : Nat) :
    Option (UpdResult × RobustGtfsWrapper × Nat × Int) :=
  let w1 := if w.lastSuccessfulUpdate = none then detectNativeCapabilities w cfg disableEnv else w
  if w1.wrapperEnabled = false then
    match ops k with
    | OpOutcome.ok d => some (UpdResult.ok, w1, k + 1, now + d)
    | OpOutcome.fail e d => some (UpdResult.thrown e, w1, k + 1, now + d)
  else if w1.nativeTimeoutSupported = true then
    some (lightweightMode w1 now (ops k) k)
  else
    fullProtectionMode fuel w1 now ops k

/-- Aggregated health states of `getHealthStatus()`. -/
inductive Health where
  | HEALTHY
  | WARNING
  | DEGRADED
  | CRITICAL
deriving DecidableEq

/-- The staleness condition of `getHealthStatus()`:
`this.lastSuccessfulUpdate && (now - this.lastSuccessfulUpdate) > 300000`
(JavaScript truthiness again: a stored timestamp of exactly `0` is falsy). -/
def staleCheck (lastSuccessfulUpdate : Option Int) (now : Int) : Bool :=
  match lastSuccessfulUpdate with
  | some t => t != 0 && decide (300000 < now - t)
  | none => false

/-- The `overallHealth` computation of `getHealthStatus()` evaluated at time
`now`: a CRITICAL/WARNING/HEALTHY determination followed by an unconditional
staleness reassignment to DEGRADED. -/
def overallHealth (w : RobustGtfsWrapper) (now : Int) : Health :=
  let base :=
    if w.main.state = CBState.OPEN ∨ w.network.state = CBState.OPEN then Health.CRITICAL
    else if 5 ≤ w.consecutiveFailures then Health.CRITICAL
    else if 1 ≤ w.consecutiveFailures then Health.WARNING
    else Health.HEALTHY
  if staleCheck w.lastSuccessfulUpdate now then Health.DEGRADED else base

def isOkExc : Except JsError Unit → Bool
  | Except.ok _ => true
  | Except.error _ => false

def isCircuitOpenExc : Except JsError Unit → Bool
  | Except.error e => e.code == some ("CIRCUIT_OPEN")
  | Except.ok _ => false

end Gtfs

namespace Gtfs

/-! Concrete scenarios used by the claim theorems. -/

/-- An error with the connection-failure signature (`NETWORK_ERROR`). -/
def networkError : JsError := { message := "fetch failed", code := none }

/-- An error with the malformed-payload signature (`DATA_FORMAT_ERROR`). -/
def dataFormatError : JsError := { message := "invalid protobuf feed", code := none }

/-- A fresh wrapper whose wrapped operation always rejects with a retryable
network error after 10 ms, called at `Date.now() = 1000`. -/
def persistentFailureRun : Option (UpdResult × RobustGtfsWrapper × Nat × Int) :=
  fullProtectionMode 10 RobustGtfsWrapper.init 1000 (fun _ => OpOutcome.fail networkError 10) 0

/-- A fresh wrapper whose wrapped operation rejects with a network error on its
first two invocations (10 ms each) and then fulfils, called at
`Date.now() = 1000`. -/
def twoFailuresThenSuccessRun : Option (UpdResult × RobustGtfsWrapper × Nat × Int) :=
  fullProtectionMode 10 RobustGtfsWrapper.init 1000
    (fun k => if k < 2 then OpOutcome.fail networkError 10 else OpOutcome.ok 10) 0

/-- A fresh wrapper whose wrapped operation rejects with a data-format error on
the first attempt. -/
def dataFormatFailureRun : Option (UpdResult × RobustGtfsWrapper × Nat × Int) :=
  fullProtectionMode 10 RobustGtfsWrapper.init 1000 (fun _ => OpOutcome.fail dataFormatError 10) 0

/-- A single `execute` call on a fresh breaker (timeout 30000 ms) whose
operation fulfils after 100 ms. -/
def fastSuccessExec : ExecOutcome :=
  CircuitBreaker.execute (CircuitBreaker.new ("CB") (some 5) (some 30000) (some 60000)) 0
    (OpOutcome.ok 100)

/-- A breaker that has just opened: 5 failures, last at time 1000. -/
def openBreaker : CircuitBreaker :=
  { CircuitBreaker.new ("CB-open") (some 5) (some 30000) (some 60000) with
    state := CBState.OPEN
    failureCount := 5
    lastFailureTime := some 1000 }

/-- A feed configuration exposing none of the recognised timeout-like fields. -/
def cfgPlain : GtfsConfig := { realtimeTimeout := none, timeout := none, downloadTimeout := none }

/-- A feed configuration exposing `downloadTimeout`. -/
def cfgNative : GtfsConfig := { realtimeTimeout := none, timeout := none, downloadTimeout := some 30000 }

/-- First wrapper-level call: fresh wrapper, plain config, terminally failing
operation (data-format error), at `Date.now() = 1000`. -/
def detectRun1 : Option (UpdResult × RobustGtfsWrapper × Nat × Int) :=
  updateGtfsRealtime 10 RobustGtfsWrapper.init 1000 cfgPlain false
    (fun _ => OpOutcome.fail dataFormatError 10) 0

/-- The wrapper state after `detectRun1`. -/
def detectW1 : RobustGtfsWrapper :=
  match detectRun1 with
  | some (_, w, _, _) => w
  | none => RobustGtfsWrapper.init

/-- Second wrapper-level call on the same wrapper, now with a config exposing
`downloadTimeout`, at `Date.now() = 60000`. -/
def detectRun2 : Option (UpdResult × RobustGtfsWrapper × Nat × Int) :=
  updateGtfsRealtime 10 detectW1 60000 cfgNative false (fun _ => OpOutcome.ok 10) 0

/-- The wrapper state after `detectRun2`. -/
def detectW2 : RobustGtfsWrapper :=
  match detectRun2 with
  | some (_, w, _, _) => w
  | none => RobustGtfsWrapper.init

/-- A wrapper whose `main` breaker is OPEN and whose last success is stale. -/
def staleOpenWrapper : RobustGtfsWrapper :=
  { RobustGtfsWrapper.init with
    main := { RobustGtfsWrapper.init.main with state := CBState.OPEN }
    lastSuccessfulUpdate := some 5 }

/-- C2. While the breaker is OPEN and the cool-down has not elapsed, `execute`
rejects immediately (`endTime = now`) with a `CIRCUIT_OPEN`-coded error, does
not start the wrapped operation, and still increments `stats.totalRequests`
(and changes nothing else). -/
theorem open_circuit_short_circuits (b : CircuitBreaker) (now : Int) (op : OpOutcome)
    (hopen : b.state = CBState.OPEN)
    (hfresh : now - jsNullNum b.lastFailureTime < b.resetTimeout) :
    (CircuitBreaker.execute b now op).opInvoked = false ∧
    isCircuitOpenExc (CircuitBreaker.execute b now op).result = true ∧
    (CircuitBreaker.execute b now op).eventual.stats.totalRequests = b.stats.totalRequests + 1 ∧
    (CircuitBreaker.execute b now op).eventual =
      { b with stats := { b.stats with totalRequests := b.stats.totalRequests + 1 } } ∧
    (CircuitBreaker.execute b now op).endTime = now := by
  simp [CircuitBreaker.execute, isCircuitOpenExc, hopen, hfresh]

/-- C2, instantiated: a call at time 2000 on a breaker that opened at time
1000 with a 60 s cool-down is rejected without starting the operation. -/
theorem open_circuit_short_circuits_witness :
    openBreaker.state = CBState.OPEN ∧
    ((2000 : Int) - jsNullNum openBreaker.lastFailureTime < openBreaker.resetTimeout) ∧
    (CircuitBreaker.execute openBreaker 2000 (OpOutcome.ok 10)).opInvoked = false ∧
    isCircuitOpenExc (CircuitBreaker.execute openBreaker 2000 (OpOutcome.ok 10)).result = true :=
  have h := open_circuit_short_circuits openBreaker 2000 (OpOutcome.ok 10) (by decide) (by decide)
  ⟨by decide, by decide, h.1, h.2.1⟩

/-- C3 (code bug). With the default `retries = 2`, a persistently failing
operation whose errors are retryable is invoked 5 times, not at most
1 + 2 = 3: every retry re-enters `fullProtectionMode`, which mints a fresh
`Date.now()`-based `operationId`, so `getCurrentRetryCount` always reads 0 and
the loop only terminates when the breaker opens and rejects the 6th attempt. -/
theorem retry_cap_bypassed_on_persistent_failure :
    RobustGtfsWrapper.init.config.retries = 2 ∧
    (persistentFailureRun.map fun r => r.2.2.1) = some 5 ∧
    (persistentFailureRun.map fun r => r.1.isFallbackRes) = some true ∧
    (persistentFailureRun.map fun r => r.2.1.main.stats.circuitOpenCount) = some 1 :=
  ⟨by decide, by decide, by decide, by decide⟩

/-- C6. The retry predicate accepts exactly `NETWORK_ERROR`, `TIMEOUT_ERROR`
and `UNKNOWN_ERROR`; and a run whose first attempt rejects with a
`DATA_FORMAT_ERROR` performs exactly one invocation of the wrapped operation
and ends in the graceful fallback. -/
theorem retry_policy_and_data_format_single_invocation :
    (∀ et : ErrorType, shouldRetry et = true ↔
      (et = ErrorType.NETWORK_ERROR ∨ et = ErrorType.TIMEOUT_ERROR ∨
        et = ErrorType.UNKNOWN_ERROR)) ∧
    classifyError dataFormatError = ErrorType.DATA_FORMAT_ERROR ∧
    (dataFormatFailureRun.map fun r => r.2.2.1) = some 1 ∧
    (dataFormatFailureRun.map fun r => r.1.isFallbackRes) = some true :=
  ⟨fun et => by cases et <;> simp [shouldRetry], by decide, by decide, by decide⟩

/-- C6, instantiated at a retryable and a non-retryable classification. -/
theorem retry_policy_and_data_format_single_invocation_witness :
    shouldRetry ErrorType.NETWORK_ERROR = true :=
  (retry_policy_and_data_format_single_invocation.1 ErrorType.NETWORK_ERROR).2
    (Or.inl rfl)

/-- C7 (code bug). An `execute` call that succeeds (operation settles after
100 ms, timeout 30000 ms) still ends with `stats.timeouts = 1`: the source
never clears the timeout timer, so its callback (`this.stats.timeouts++`)
fires 30000 ms after the call started even though the call succeeded. -/
theorem timeouts_incremented_on_successful_call :
    isOkExc fastSuccessExec.result = true ∧
    fastSuccessExec.settled.stats.successfulRequests = 1 ∧
    fastSuccessExec.settled.stats.failedRequests = 0 ∧
    fastSuccessExec.settled.stats.timeouts = 0 ∧
    fastSuccessExec.eventual.stats.timeouts = 1 :=
  ⟨by decide, by decide, by decide, by decide, by decide⟩

/-- C9 (code bug). After a run that fails twice with retryable errors and then
terminally succeeds, the retry tracker still holds the entries created by the
two failed attempts (only the terminal attempt's fresh id is deleted). -/
theorem retry_tracker_entries_leak :
    (twoFailuresThenSuccessRun.map fun r => r.1.isOkRes) = some true ∧
    (twoFailuresThenSuccessRun.map fun r => r.2.2.1) = some 3 ∧
    (twoFailuresThenSuccessRun.map fun r => r.2.1.retryTracker) =
      some [("gtfs-rt-1000", 1), ("gtfs-rt-3010", 1)] :=
  ⟨by decide, by decide, by decide⟩

/-- C8 counterexample. The first call fails terminally, so
`lastSuccessfulUpdate` is still `null`; the second call re-runs capability
detection against its own config and flips `nativeTimeoutSupported` from
`false` to `true` — a later call to update changed a mode flag. -/
theorem capability_detection_rerun_counterexample :
    detectW1.nativeTimeoutSupported = false ∧
    detectW1.lastSuccessfulUpdate = none ∧
    detectW2.nativeTimeoutSupported = true :=
  ⟨by decide, by decide, by decide⟩

/-- C5. The aggregated health is DEGRADED whenever the staleness condition
holds (even when a breaker is OPEN, overwriting CRITICAL); otherwise it is
CRITICAL when a breaker is OPEN or `consecutiveFailures >= 5`, WARNING when
`1 <= consecutiveFailures < 5` with no open breaker, and HEALTHY otherwise. -/
theorem overall_health_classification (w : RobustGtfsWrapper) (now : Int) :
    (staleCheck w.lastSuccessfulUpdate now = true →
      overallHealth w now = Health.DEGRADED) ∧
    (staleCheck w.lastSuccessfulUpdate now = false →
      (w.main.state = CBState.OPEN ∨ w.network.state = CBState.OPEN) →
      overallHealth w now = Health.CRITICAL) ∧
    (staleCheck w.lastSuccessfulUpdate now = false →
      5 ≤ w.consecutiveFailures → overallHealth w now = Health.CRITICAL) ∧
    (staleCheck w.lastSuccessfulUpdate now = false →
      ¬(w.main.state = CBState.OPEN ∨ w.network.state = CBState.OPEN) →
      w.consecutiveFailures < 5 → 1 ≤ w.consecutiveFailures →
      overallHealth w now = Health.WARNING) ∧
    (staleCheck w.lastSuccessfulUpdate now = false →
      ¬(w.main.state = CBState.OPEN ∨ w.network.state = CBState.OPEN) →
      w.consecutiveFailures = 0 → overallHealth w now = Health.HEALTHY) := by
  refine ⟨fun hs => ?_, fun hs hop => ?_, fun hs h5 => ?_,
    fun hs hop h5 h1 => ?_, fun hs hop h0 => ?_⟩
  · simp [overallHealth, hs]
  · simp [overallHealth, hs, hop]
  · simp [overallHealth, hs, h5]
  · have h5f : ¬ (5 ≤ w.consecutiveFailures) := by omega
    simp [overallHealth, hs, hop, h5f, h1]
  · simp [overallHealth, hs, hop, h0]

/-- C5, instantiated: a stale last success reassigns an OPEN-breaker (CRITICAL)
state to DEGRADED. -/
theorem overall_health_classification_witness :
    staleOpenWrapper.main.state = CBState.OPEN ∧
    staleCheck staleOpenWrapper.lastSuccessfulUpdate 400000 = true ∧
    overallHealth staleOpenWrapper 400000 = Health.DEGRADED :=
  ⟨by decide, by decide,
    (overall_health_classification staleOpenWrapper 400000).1 (by decide)⟩

end Gtfs

namespace Gtfs

theorem lightweightMode_main_stats (w : RobustGtfsWrapper) (t : Int) (op : OpOutcome) (k : Nat) :
    (lightweightMode w t op k).2.1.main.stats.totalRequests = w.main.stats.totalRequests ∧
    (lightweightMode w t op k).2.1.main.stats.successfulRequests +
      (lightweightMode w t op k).2.1.main.stats.failedRequests =
      w.main.stats.successfulRequests + w.main.stats.failedRequests + 1 ∧
    (w.main.stats.totalRequests = 0 →
      (lightweightMode w t op k).2.1.main.stats.averageResponseTime = JSNum.nonFinite) := by
  cases op with
  | ok d =>
    refine ⟨rfl, ?_, fun h => ?_⟩
    · simp [lightweightMode, RobustGtfsWrapper.onUpdateSuccess, CircuitBreaker.onSuccess,
        CircuitBreaker.updateAverageResponseTime]
      omega
    · simp [lightweightMode, RobustGtfsWrapper.onUpdateSuccess, CircuitBreaker.onSuccess,
        CircuitBreaker.updateAverageResponseTime, JSNum.div, h]
  | fail e d =>
    refine ⟨?_, ?_, fun h => ?_⟩
    · by_cases hth : w.main.failureThreshold ≤ w.main.failureCount + 1 <;>
        simp [lightweightMode, CircuitBreaker.onFailure,
          CircuitBreaker.updateAverageResponseTime, hth]
    · by_cases hth : w.main.failureThreshold ≤ w.main.failureCount + 1 <;>
        simp [lightweightMode, CircuitBreaker.onFailure,
          CircuitBreaker.updateAverageResponseTime, hth] <;> omega
    · by_cases hth : w.main.failureThreshold ≤ w.main.failureCount + 1 <;>
        simp [lightweightMode, CircuitBreaker.onFailure,
          CircuitBreaker.updateAverageResponseTime, JSNum.div, hth, h]

end Gtfs

namespace Gtfs

def runLightweight : RobustGtfsWrapper → List (Int × OpOutcome) → RobustGtfsWrapper
  | w, [] => w
  | w, (t, op) :: rest => runLightweight (lightweightMode w t op 0).2.1 rest

theorem runLightweight_stats :
    ∀ (calls : List (Int × OpOutcome)) (w : RobustGtfsWrapper),
      w.main.stats.totalRequests = 0 →
      (runLightweight w calls).main.stats.totalRequests = 0 ∧
      (runLightweight w calls).main.stats.successfulRequests +
        (runLightweight w calls).main.stats.failedRequests =
        w.main.stats.successfulRequests + w.main.stats.failedRequests + calls.length ∧
      (calls ≠ [] →
        (runLightweight w calls).main.stats.averageResponseTime = JSNum.nonFinite)
  | [], w, h0 => by simp [runLightweight, h0]
  | (t, op) :: rest, w, h0 => by
    obtain ⟨htot, hsum, havg⟩ := lightweightMode_main_stats w t op 0
    have h0' : (lightweightMode w t op 0).2.1.main.stats.totalRequests = 0 := by
      rw [htot]; exact h0
    obtain ⟨ih1, ih2, ih3⟩ := runLightweight_stats rest (lightweightMode w t op 0).2.1 h0'
    refine ⟨by simpa [runLightweight] using ih1, ?_, fun _ => ?_⟩
    · have : (runLightweight w ((t, op) :: rest)) =
        runLightweight (lightweightMode w t op 0).2.1 rest := rfl
      rw [this, ih2, hsum]
      simp [List.length_cons]
      omega
    · rcases rest with _ | ⟨c, cs⟩
      · simpa [runLightweight] using havg h0
      · simpa [runLightweight] using ih3 (by simp)

/-- C10. Lightweight-mode calls record outcomes into the `main` breaker via
`onSuccess`/`onFailure` directly (never via `execute`): after `N ≥ 1` such
calls on a fresh wrapper, `successfulRequests + failedRequests = N` while
`totalRequests` is still 0, and the average-response-time update divides by
`totalRequests = 0`, leaving a non-finite `averageResponseTime`. -/
theorem lightweight_mode_counts_bypass_totalRequests
    (calls : List (Int × OpOutcome)) (hne : calls ≠ []) :
    (runLightweight RobustGtfsWrapper.init calls).main.stats.totalRequests = 0 ∧
    (runLightweight RobustGtfsWrapper.init calls).main.stats.successfulRequests +
      (runLightweight RobustGtfsWrapper.init calls).main.stats.failedRequests = calls.length ∧
    (runLightweight RobustGtfsWrapper.init calls).main.stats.averageResponseTime =
      JSNum.nonFinite := by
  obtain ⟨h1, h2, h3⟩ := runLightweight_stats calls RobustGtfsWrapper.init rfl
  exact ⟨h1, by simpa [RobustGtfsWrapper.init, CircuitBreaker.new, Stats.init] using h2, h3 hne⟩

/-- C10, instantiated: one success and one failure in lightweight mode. -/
theorem lightweight_mode_counts_bypass_totalRequests_witness :
    (runLightweight RobustGtfsWrapper.init
        [(1000, OpOutcome.ok 10), (2000, OpOutcome.fail networkError 10)]).main.stats.totalRequests = 0 ∧
    (runLightweight RobustGtfsWrapper.init
        [(1000, OpOutcome.ok 10), (2000, OpOutcome.fail networkError 10)]).main.stats.successfulRequests +
      (runLightweight RobustGtfsWrapper.init
        [(1000, OpOutcome.ok 10), (2000, OpOutcome.fail networkError 10)]).main.stats.failedRequests = 2 ∧
    (runLightweight RobustGtfsWrapper.init
        [(1000, OpOutcome.ok 10), (2000, OpOutcome.fail networkError 10)]).main.stats.averageResponseTime =
      JSNum.nonFinite :=
  lightweight_mode_counts_bypass_totalRequests
    [(1000, OpOutcome.ok 10), (2000, OpOutcome.fail networkError 10)] (by simp)

end Gtfs

namespace Gtfs

/-- A sequence of failing `execute` calls: each element gives the error, the
call time and the operation's settle duration; states are chained through
`eventual` (stray timer increments only touch `stats.timeouts`). -/
def runFailures : CircuitBreaker → List (JsError × Int × Int) → CircuitBreaker
  | b, [] => b
  | b, (e, t, d) :: rest =>
    runFailures (CircuitBreaker.execute b t (OpOutcome.fail e d)).eventual rest

/-- The breaker obtained from `new CircuitBreaker` with option
`failureThreshold: T` after a sequence of failing calls. -/
def afterFailures (nm : String) (T : Nat) (calls : List (JsError × Int × Int)) :
    CircuitBreaker :=
  runFailures (CircuitBreaker.new nm (some T) none none) calls

theorem jsOrNat_some_of_pos (n d : Nat) (h : 0 < n) : jsOrNat (some n) d = n := by
  simp [jsOrNat]
  omega

/-- Effect of one admitted failing call on the counters that drive the state
machine. -/
theorem execute_fail_step (b : CircuitBreaker) (e : JsError) (t d : Int)
    (hb : b.state ≠ CBState.OPEN) :
    (CircuitBreaker.execute b t (OpOutcome.fail e d)).eventual.failureCount =
      b.failureCount + 1 ∧
    (CircuitBreaker.execute b t (OpOutcome.fail e d)).eventual.state =
      (if b.failureThreshold ≤ b.failureCount + 1 then CBState.OPEN else b.state) ∧
    (CircuitBreaker.execute b t (OpOutcome.fail e d)).eventual.stats.circuitOpenCount =
      b.stats.circuitOpenCount +
        (if b.failureThreshold ≤ b.failureCount + 1 then 1 else 0) ∧
    (CircuitBreaker.execute b t (OpOutcome.fail e d)).eventual.failureThreshold =
      b.failureThreshold ∧
    (CircuitBreaker.execute b t (OpOutcome.fail e d)).eventual.timeout = b.timeout ∧
    (CircuitBreaker.execute b t (OpOutcome.fail e d)).eventual.resetTimeout =
      b.resetTimeout := by
  by_cases hd : d < b.timeout <;>
    by_cases hth : b.failureThreshold ≤ b.failureCount + 1 <;>
      simp [CircuitBreaker.execute, CircuitBreaker.executeRace, CircuitBreaker.onFailure,
        CircuitBreaker.updateAverageResponseTime, CircuitBreaker.bumpTimeouts, hb, hd, hth]

end Gtfs

namespace Gtfs

/-- While the threshold is not yet reached, failing calls keep the breaker
CLOSED and just count up. -/
theorem runFailures_below_threshold :
    ∀ (calls : List (JsError × Int × Int)) (b : CircuitBreaker),
      b.state = CBState.CLOSED →
      b.failureCount + calls.length < b.failureThreshold →
      (runFailures b calls).state = CBState.CLOSED ∧
      (runFailures b calls).failureCount = b.failureCount + calls.length ∧
      (runFailures b calls).stats.circuitOpenCount = b.stats.circuitOpenCount ∧
      (runFailures b calls).failureThreshold = b.failureThreshold ∧
      (runFailures b calls).timeout = b.timeout ∧
      (runFailures b calls).resetTimeout = b.resetTimeout
  | [], b, hb, _ => by simp [runFailures, hb]
  | (e, t, d) :: rest, b, hb, h => by
    have hb2 : b.state ≠ CBState.OPEN := by rw [hb]; exact fun hc => by cases hc
    obtain ⟨hfc, hst, hcoc, hthp, hto, hrt⟩ := execute_fail_step b e t d hb2
    simp only [List.length_cons] at h
    have hnth : ¬ (b.failureThreshold ≤ b.failureCount + 1) := by omega
    rw [if_neg hnth] at hst hcoc
    obtain ⟨ih1, ih2, ih3, ih4, ih5, ih6⟩ :=
      runFailures_below_threshold rest (CircuitBreaker.execute b t (OpOutcome.fail e d)).eventual
        (by rw [hst, hb]) (by rw [hfc, hthp]; omega)
    have hrun : runFailures b ((e, t, d) :: rest) =
        runFailures (CircuitBreaker.execute b t (OpOutcome.fail e d)).eventual rest := rfl
    rw [hrun]
    refine ⟨ih1, ?_, ?_, ?_, ?_, ?_⟩
    · rw [ih2, hfc]; simp only [List.length_cons]; omega
    · rw [ih3, hcoc]; omega
    · rw [ih4, hthp]
    · rw [ih5, hto]
    · rw [ih6, hrt]

/-- When the number of failing calls exactly reaches the threshold, the last
call opens the circuit and `circuitOpenCount` becomes 1. -/
theorem runFailures_reaches_threshold :
    ∀ (calls : List (JsError × Int × Int)) (b : CircuitBreaker),
      b.state = CBState.CLOSED →
      b.stats.circuitOpenCount = 0 →
      calls ≠ [] →
      b.failureCount + calls.length = b.failureThreshold →
      (runFailures b calls).state = CBState.OPEN ∧
      (runFailures b calls).failureCount = b.failureThreshold ∧
      (runFailures b calls).stats.circuitOpenCount = 1 ∧
      (runFailures b calls).failureThreshold = b.failureThreshold ∧
      (runFailures b calls).timeout = b.timeout ∧
      (runFailures b calls).resetTimeout = b.resetTimeout
  | [], _, _, _, hne, _ => absurd rfl hne
  | (e, t, d) :: rest, b, hb, hcoc0, _, hlen => by
    have hb2 : b.state ≠ CBState.OPEN := by rw [hb]; exact fun hc => by cases hc
    obtain ⟨hfc, hst, hcoc, hthp, hto, hrt⟩ := execute_fail_step b e t d hb2
    simp only [List.length_cons] at hlen
    have hrun : runFailures b ((e, t, d) :: rest) =
        runFailures (CircuitBreaker.execute b t (OpOutcome.fail e d)).eventual rest := rfl
    rcases rest with _ | ⟨c, cs⟩
    · simp only [List.length_nil] at hlen
      have hth : b.failureThreshold ≤ b.failureCount + 1 := by omega
      rw [if_pos hth] at hst hcoc
      have hrun1 : runFailures b [(e, t, d)] =
          (CircuitBreaker.execute b t (OpOutcome.fail e d)).eventual := rfl
      rw [hrun1]
      refine ⟨hst, ?_, ?_, hthp, hto, hrt⟩
      · rw [hfc]; omega
      · rw [hcoc, hcoc0]
    · have hnth : ¬ (b.failureThreshold ≤ b.failureCount + 1) := by
        simp only [List.length_cons] at hlen
        omega
      rw [if_neg hnth] at hst hcoc
      obtain ⟨ih1, ih2, ih3, ih4, ih5, ih6⟩ :=
        runFailures_reaches_threshold (c :: cs)
          (CircuitBreaker.execute b t (OpOutcome.fail e d)).eventual
          (by rw [hst, hb]) (by rw [hcoc, hcoc0]) (by simp)
          (by rw [hfc, hthp]; omega)
      rw [hrun]
      exact ⟨ih1, by rw [ih2, hthp], ih3, by rw [ih4, hthp], by rw [ih5, hto],
        by rw [ih6, hrt]⟩

end Gtfs

namespace Gtfs

/-- An OPEN breaker whose cool-down has elapsed admits the call as a probe;
a probe that fulfils before the timeout closes the circuit and resets
`failureCount`. -/
theorem probe_success (b : CircuitBreaker) (now d : Int)
    (hb : b.state = CBState.OPEN)
    (hadm : ¬ (now - jsNullNum b.lastFailureTime < b.resetTimeout))
    (hd : d < b.timeout) :
    (CircuitBreaker.execute b now (OpOutcome.ok d)).opInvoked = true ∧
    (CircuitBreaker.execute b now (OpOutcome.ok d)).settled.state = CBState.CLOSED ∧
    (CircuitBreaker.execute b now (OpOutcome.ok d)).settled.failureCount = 0 := by
  simp [CircuitBreaker.execute, CircuitBreaker.executeRace, CircuitBreaker.onSuccess,
    CircuitBreaker.updateAverageResponseTime, hb, hadm, hd]

/-- A failing probe (operation rejection or timeout) returns the breaker to
OPEN when the failure count was already at or above the threshold. -/
theorem probe_failure (b : CircuitBreaker) (now : Int) (e : JsError) (d : Int)
    (hb : b.state = CBState.OPEN)
    (hadm : ¬ (now - jsNullNum b.lastFailureTime < b.resetTimeout))
    (hth : b.failureThreshold ≤ b.failureCount + 1) :
    (CircuitBreaker.execute b now (OpOutcome.fail e d)).opInvoked = true ∧
    (CircuitBreaker.execute b now (OpOutcome.fail e d)).settled.state = CBState.OPEN := by
  by_cases hd : d < b.timeout <;>
    simp [CircuitBreaker.execute, CircuitBreaker.executeRace, CircuitBreaker.onFailure,
      CircuitBreaker.updateAverageResponseTime, CircuitBreaker.bumpTimeouts,
      hb, hadm, hd, hth]

/-- C1. For every threshold `T ≥ 1`: `T` consecutive failing `execute` calls on
a fresh breaker yield `state = OPEN` with `circuitOpenCount = 1`; once the
cool-down has elapsed (the admission condition no longer holds), the next call
is admitted as a probe — a probe fulfilling before the timeout yields
`state = CLOSED` with `failureCount = 0`, while a failing probe returns the
state to OPEN. -/
theorem breaker_opens_at_threshold_then_probes (T : Nat) (hT : 0 < T) (nm : String)
    (calls : List (JsError × Int × Int)) (hlen : calls.length = T) :
    (afterFailures nm T calls).state = CBState.OPEN ∧
    (afterFailures nm T calls).stats.circuitOpenCount = 1 ∧
    (afterFailures nm T calls).failureCount = T ∧
    (∀ now2 d : Int,
      ¬ (now2 - jsNullNum (afterFailures nm T calls).lastFailureTime <
          (afterFailures nm T calls).resetTimeout) →
      d < (afterFailures nm T calls).timeout →
      (CircuitBreaker.execute (afterFailures nm T calls) now2 (OpOutcome.ok d)).opInvoked =
        true ∧
      (CircuitBreaker.execute (afterFailures nm T calls) now2 (OpOutcome.ok d)).settled.state =
        CBState.CLOSED ∧
      (CircuitBreaker.execute (afterFailures nm T calls) now2
          (OpOutcome.ok d)).settled.failureCount = 0) ∧
    (∀ (now2 : Int) (e : JsError) (d : Int),
      ¬ (now2 - jsNullNum (afterFailures nm T calls).lastFailureTime <
          (afterFailures nm T calls).resetTimeout) →
      (CircuitBreaker.execute (afterFailures nm T calls) now2
          (OpOutcome.fail e d)).opInvoked = true ∧
      (CircuitBreaker.execute (afterFailures nm T calls) now2
          (OpOutcome.fail e d)).settled.state = CBState.OPEN) := by
  have hthT : (CircuitBreaker.new nm (some T) none none).failureThreshold = T := by
    simp [CircuitBreaker.new, jsOrNat_some_of_pos T 5 hT]
  have hne : calls ≠ [] := by
    intro hc
    rw [hc] at hlen
    simp at hlen
    omega
  obtain ⟨h1, h2, h3, h4, _, _⟩ :=
    runFailures_reaches_threshold calls (CircuitBreaker.new nm (some T) none none)
      rfl rfl hne (by simp [CircuitBreaker.new, hlen, jsOrNat_some_of_pos T 5 hT])
  have hb1 : (afterFailures nm T calls).state = CBState.OPEN := h1
  have hb3 : (afterFailures nm T calls).failureCount = T := by
    have : (afterFailures nm T calls).failureCount =
        (CircuitBreaker.new nm (some T) none none).failureThreshold := h2
    rw [this, hthT]
  have hb4 : (afterFailures nm T calls).failureThreshold = T := by
    have : (afterFailures nm T calls).failureThreshold =
        (CircuitBreaker.new nm (some T) none none).failureThreshold := h4
    rw [this, hthT]
  refine ⟨hb1, h3, hb3, ?_, ?_⟩
  · intro now2 d hadm hd
    exact probe_success (afterFailures nm T calls) now2 d hb1 hadm hd
  · intro now2 e d hadm
    exact probe_failure (afterFailures nm T calls) now2 e d hb1 hadm (by omega)

/-- C1, instantiated: threshold 2, two failing calls (at times 0 and 100),
then a probe at time 70000 (after the 60 s default cool-down). -/
theorem breaker_opens_at_threshold_then_probes_witness :
    (afterFailures ("CB") 2 [(networkError, 0, 10), (networkError, 100, 10)]).state =
      CBState.OPEN ∧
    (afterFailures ("CB") 2
        [(networkError, 0, 10), (networkError, 100, 10)]).stats.circuitOpenCount = 1 ∧
    (CircuitBreaker.execute
        (afterFailures ("CB") 2 [(networkError, 0, 10), (networkError, 100, 10)]) 70000
        (OpOutcome.ok 10)).settled.state = CBState.CLOSED ∧
    (CircuitBreaker.execute
        (afterFailures ("CB") 2 [(networkError, 0, 10), (networkError, 100, 10)]) 70000
        (OpOutcome.fail networkError 10)).settled.state = CBState.OPEN :=
  have h := breaker_opens_at_threshold_then_probes 2 (by decide) ("CB")
    [(networkError, 0, 10), (networkError, 100, 10)] (by decide)
  ⟨h.1, h.2.1, (h.2.2.2.1 70000 10 (by decide) (by decide)).2.1,
    (h.2.2.2.2 70000 networkError 10 (by decide)).2⟩

end Gtfs

namespace Gtfs

theorem setCB_lastSuccessfulUpdate (w : RobustGtfsWrapper) (i : CBId) (cb : CircuitBreaker) :
    (w.setCB i cb).lastSuccessfulUpdate = w.lastSuccessfulUpdate := by
  cases i <;> rfl

/-- C4. In full-protection mode a run never throws: whenever it terminates it
returns either the operation's value or the graceful-fallback object
`success: false, fallbackApplied: true` with the fixed message, whose
`timeSinceLastSuccess` is the return-time clock minus `lastSuccessfulUpdate`
when a success has ever occurred (at a positive clock value) and `null`
otherwise. -/
theorem graceful_fallback_on_terminal_failure (fuel : Nat) (ops : Nat → OpOutcome) :
    ∀ (w : RobustGtfsWrapper) (now : Int) (k : Nat),
      (∀ t, w.lastSuccessfulUpdate = some t → 0 < t) →
      ∀ (res : UpdResult) (w2 : RobustGtfsWrapper) (k2 : Nat) (t2 : Int),
        fullProtectionMode fuel w now ops k = some (res, w2, k2, t2) →
        res = UpdResult.ok ∨
        ∃ fb : FallbackResult, res = UpdResult.fallback fb ∧
          fb.success = false ∧ fb.fallbackApplied = true ∧
          fb.message = "Using cached realtime data due to update failures" ∧
          fb.timeSinceLastSuccess = Option.map (fun t => t2 - t) w.lastSuccessfulUpdate := by
  induction fuel with
  | zero =>
    intro w now k hpos res w2 k2 t2 h
    simp [fullProtectionMode] at h
  | succ n ih =>
    intro w now k hpos res w2 k2 t2 h
    simp only [fullProtectionMode] at h
    split at h
    · -- operation fulfilled
      simp only [Option.some.injEq, Prod.mk.injEq] at h
      left
      exact h.1.symm
    · -- operation rejected with error e
      rename_i e heq
      split at h
      · -- circuit-open rejection: immediate graceful fallback
        simp only [Option.some.injEq, Prod.mk.injEq] at h
        obtain ⟨hres2, hw2, hk2, ht2⟩ := h
        right
        refine ⟨_, hres2.symm, rfl, rfl, rfl, ?_⟩
        rcases hl : w.lastSuccessfulUpdate with _ | t
        · simp [RobustGtfsWrapper.getGracefulFallback, setCB_lastSuccessfulUpdate, hl, ht2]
        · have ht : 0 < t := hpos t hl
          have hne0 : ¬ t = 0 := by omega
          simp [RobustGtfsWrapper.getGracefulFallback, setCB_lastSuccessfulUpdate, hl, ht2,
            hne0]
      · rename_i hcode
        split at h
        · -- retryable error below the retry bound: recurse
          have hpos2 : ∀ t,
              ((w.setCB w.selectCircuitBreaker
                  (CircuitBreaker.execute (w.getCB w.selectCircuitBreaker) now
                    (ops k)).eventual).getCurrentRetryCount
                ("gtfs-rt-" ++ toString now)).2.lastSuccessfulUpdate = some t → 0 < t := by
            intro t ht
            apply hpos t
            rw [← setCB_lastSuccessfulUpdate w w.selectCircuitBreaker
              (CircuitBreaker.execute (w.getCB w.selectCircuitBreaker) now (ops k)).eventual]
            exact ht
          have hcon := ih _ _ _ hpos2 res w2 k2 t2 h
          have hlsu : ((w.setCB w.selectCircuitBreaker
              (CircuitBreaker.execute (w.getCB w.selectCircuitBreaker) now
                (ops k)).eventual).getCurrentRetryCount
              ("gtfs-rt-" ++ toString now)).2.lastSuccessfulUpdate = w.lastSuccessfulUpdate :=
            setCB_lastSuccessfulUpdate w _ _
          rcases hcon with hok | ⟨fb, hfb, h1, h2, h3, h4⟩
          · left; exact hok
          · right
            refine ⟨fb, hfb, h1, h2, h3, ?_⟩
            rw [h4, hlsu]
        · -- non-retryable error or retry bound reached: graceful fallback
          simp only [Option.some.injEq, Prod.mk.injEq] at h
          obtain ⟨hres2, hw2, hk2, ht2⟩ := h
          right
          refine ⟨_, hres2.symm, rfl, rfl, rfl, ?_⟩
          rcases hl : w.lastSuccessfulUpdate with _ | t
          · simp [RobustGtfsWrapper.getGracefulFallback,
              RobustGtfsWrapper.getCurrentRetryCount, setCB_lastSuccessfulUpdate, hl, ht2]
          · have ht : 0 < t := hpos t hl
            have hne0 : ¬ t = 0 := by omega
            simp [RobustGtfsWrapper.getGracefulFallback,
              RobustGtfsWrapper.getCurrentRetryCount, setCB_lastSuccessfulUpdate, hl, ht2,
              hne0]

end Gtfs

namespace Gtfs

/-- The result component of the data-format failure run. -/
def dfRes : UpdResult :=
  match dataFormatFailureRun with
  | some (r, _, _, _) => r
  | none => UpdResult.ok

def dfWrapper : RobustGtfsWrapper :=
  match dataFormatFailureRun with
  | some (_, w, _, _) => w
  | none => RobustGtfsWrapper.init

def dfK : Nat :=
  match dataFormatFailureRun with
  | some (_, _, k, _) => k
  | none => 0

def dfT : Int :=
  match dataFormatFailureRun with
  | some (_, _, _, t) => t
  | none => 0

/-- C4, instantiated on the data-format failure run. -/
theorem graceful_fallback_on_terminal_failure_witness :
    dfRes = UpdResult.ok ∨
    ∃ fb : FallbackResult, dfRes = UpdResult.fallback fb ∧
      fb.success = false ∧ fb.fallbackApplied = true ∧
      fb.message = "Using cached realtime data due to update failures" ∧
      fb.timeSinceLastSuccess =
        Option.map (fun t => dfT - t) RobustGtfsWrapper.init.lastSuccessfulUpdate :=
  graceful_fallback_on_terminal_failure 10 (fun _ => OpOutcome.fail dataFormatError 10)
    RobustGtfsWrapper.init 1000 0
    (fun t ht => by simp [RobustGtfsWrapper.init] at ht)
    dfRes dfWrapper dfK dfT (by rfl)

theorem setCB_nativeTimeoutSupported (w : RobustGtfsWrapper) (i : CBId) (cb : CircuitBreaker) :
    (w.setCB i cb).nativeTimeoutSupported = w.nativeTimeoutSupported := by
  cases i <;> rfl

theorem setCB_wrapperEnabled (w : RobustGtfsWrapper) (i : CBId) (cb : CircuitBreaker) :
    (w.setCB i cb).wrapperEnabled = w.wrapperEnabled := by
  cases i <;> rfl

/-- A full-protection run never touches the two mode flags. -/
theorem fullProtectionMode_preserves_flags (ops : Nat → OpOutcome) :
    ∀ (fuel : Nat) (w : RobustGtfsWrapper) (now : Int) (k : Nat)
      (res : UpdResult) (w2 : RobustGtfsWrapper) (k2 : Nat) (t2 : Int),
      fullProtectionMode fuel w now ops k = some (res, w2, k2, t2) →
      w2.nativeTimeoutSupported = w.nativeTimeoutSupported ∧
      w2.wrapperEnabled = w.wrapperEnabled := by
  intro fuel
  induction fuel with
  | zero =>
    intro w now k res w2 k2 t2 h
    simp [fullProtectionMode] at h
  | succ n ih =>
    intro w now k res w2 k2 t2 h
    simp only [fullProtectionMode] at h
    split at h
    · simp only [Option.some.injEq, Prod.mk.injEq] at h
      obtain ⟨_, hw2, _, _⟩ := h
      rw [← hw2]
      exact ⟨setCB_nativeTimeoutSupported w _ _, setCB_wrapperEnabled w _ _⟩
    · rename_i e heq
      split at h
      · simp only [Option.some.injEq, Prod.mk.injEq] at h
        obtain ⟨_, hw2, _, _⟩ := h
        rw [← hw2]
        exact ⟨setCB_nativeTimeoutSupported w _ _, setCB_wrapperEnabled w _ _⟩
      · split at h
        · obtain ⟨ihn, ihe⟩ := ih _ _ _ res w2 k2 t2 h
          constructor
          · exact ihn.trans (setCB_nativeTimeoutSupported w _ _)
          · exact ihe.trans (setCB_wrapperEnabled w _ _)
        · simp only [Option.some.injEq, Prod.mk.injEq] at h
          obtain ⟨_, hw2, _, _⟩ := h
          rw [← hw2]
          exact ⟨setCB_nativeTimeoutSupported w _ _, setCB_wrapperEnabled w _ _⟩

/-- One lightweight-mode call never touches the two mode flags. -/
theorem lightweightMode_preserves_flags (w : RobustGtfsWrapper) (now : Int)
    (op : OpOutcome) (k : Nat) :
    (lightweightMode w now op k).2.1.nativeTimeoutSupported = w.nativeTimeoutSupported ∧
    (lightweightMode w now op k).2.1.wrapperEnabled = w.wrapperEnabled := by
  cases op <;> exact ⟨rfl, rfl⟩

/-- C8, amended. Capability detection runs on every call made while
`lastSuccessfulUpdate` is still `null` (in particular on the first call), so
such a call leaves the mode flags exactly as `detectNativeCapabilities`
computes them from its own config; once a successful update has been
recorded, a call skips detection and leaves `nativeTimeoutSupported` and
`wrapperEnabled` unchanged. -/
theorem capability_detection_until_first_success (fuel : Nat) (w : RobustGtfsWrapper)
    (now : Int) (cfg : GtfsConfig) (env : Bool) (ops : Nat → OpOutcome) (k : Nat) :
    (∀ t : Int, w.lastSuccessfulUpdate = some t →
      ∀ (res : UpdResult) (w2 : RobustGtfsWrapper) (k2 : Nat) (t2 : Int),
        updateGtfsRealtime fuel w now cfg env ops k = some (res, w2, k2, t2) →
        w2.nativeTimeoutSupported = w.nativeTimeoutSupported ∧
        w2.wrapperEnabled = w.wrapperEnabled) ∧
    (w.lastSuccessfulUpdate = none →
      ∀ (res : UpdResult) (w2 : RobustGtfsWrapper) (k2 : Nat) (t2 : Int),
        updateGtfsRealtime fuel w now cfg env ops k = some (res, w2, k2, t2) →
        w2.nativeTimeoutSupported = (detectNativeCapabilities w cfg env).nativeTimeoutSupported ∧
        w2.wrapperEnabled = (detectNativeCapabilities w cfg env).wrapperEnabled) := by
  constructor
  · intro t ht res w2 k2 t2 h
    have hw1 : (if w.lastSuccessfulUpdate = none then detectNativeCapabilities w cfg env
        else w) = w := by
      rw [ht]
      simp
    simp only [updateGtfsRealtime, hw1] at h
    split at h
    · split at h
      · simp only [Option.some.injEq, Prod.mk.injEq] at h
        obtain ⟨_, hw2, _, _⟩ := h
        rw [← hw2]
        exact ⟨rfl, rfl⟩
      · simp only [Option.some.injEq, Prod.mk.injEq] at h
        obtain ⟨_, hw2, _, _⟩ := h
        rw [← hw2]
        exact ⟨rfl, rfl⟩
    · split at h
      · simp only [Option.some.injEq] at h
        have hw2 : (lightweightMode w now (ops k) k).2.1 = w2 := by rw [h]
        rw [← hw2]
        exact lightweightMode_preserves_flags w now (ops k) k
      · exact fullProtectionMode_preserves_flags ops fuel w now k res w2 k2 t2 h
  · intro hnone res w2 k2 t2 h
    have hw1 : (if w.lastSuccessfulUpdate = none then detectNativeCapabilities w cfg env
        else w) = detectNativeCapabilities w cfg env := by
      rw [hnone]
      simp
    simp only [updateGtfsRealtime, hw1] at h
    split at h
    · split at h
      · simp only [Option.some.injEq, Prod.mk.injEq] at h
        obtain ⟨_, hw2, _, _⟩ := h
        rw [← hw2]
        exact ⟨rfl, rfl⟩
      · simp only [Option.some.injEq, Prod.mk.injEq] at h
        obtain ⟨_, hw2, _, _⟩ := h
        rw [← hw2]
        exact ⟨rfl, rfl⟩
    · split at h
      · simp only [Option.some.injEq] at h
        have hw2 : (lightweightMode (detectNativeCapabilities w cfg env) now (ops k) k).2.1 =
            w2 := by
          rw [h]
        rw [← hw2]
        exact lightweightMode_preserves_flags (detectNativeCapabilities w cfg env) now (ops k) k
      · exact fullProtectionMode_preserves_flags ops fuel (detectNativeCapabilities w cfg env)
          now k res w2 k2 t2 h

end Gtfs

namespace Gtfs

/-- A wrapper that has already recorded a successful update (at clock 5). -/
def postSuccessWrapper : RobustGtfsWrapper :=
  { RobustGtfsWrapper.init with lastSuccessfulUpdate := some 5 }

def postRun : Option (UpdResult × RobustGtfsWrapper × Nat × Int) :=
  updateGtfsRealtime 5 postSuccessWrapper 1000 cfgNative false (fun _ => OpOutcome.ok 10) 0

def postRes : UpdResult :=
  match postRun with
  | some (r, _, _, _) => r
  | none => UpdResult.ok

def postW : RobustGtfsWrapper :=
  match postRun with
  | some (_, w, _, _) => w
  | none => RobustGtfsWrapper.init

def postK : Nat :=
  match postRun with
  | some (_, _, k, _) => k
  | none => 0

def postT : Int :=
  match postRun with
  | some (_, _, _, t) => t
  | none => 0

/-- C8 amended, instantiated: with a recorded success, a call with a
timeout-exposing config leaves both flags unchanged. -/
theorem capability_detection_until_first_success_witness :
    postW.nativeTimeoutSupported = postSuccessWrapper.nativeTimeoutSupported ∧
    postW.wrapperEnabled = postSuccessWrapper.wrapperEnabled :=
  (capability_detection_until_first_success 5 postSuccessWrapper 1000 cfgNative false
      (fun _ => OpOutcome.ok 10) 0).1 5 rfl postRes postW postK postT (by rfl)

end Gtfs
